import Mathlib

/-!
Shallow embedding of the process-orchestration and embedding layer of
`script.py` (ShadowCastX-Touch): launch-option validation and argument
building, log-line classification, the sndcpy prompt acknowledgement
protocol, the controller start/stop/drain lifecycle, and the aspect-fit
computation of `AndroidView._resize_child`.

Strings are modelled as `List Char`; Python floats are modelled as `ℚ`
(the device resolutions and viewport sizes involved are small integers,
so rational arithmetic agrees with the source on all inputs considered
here); Python's banker-style `round` is modelled exactly by `pyRound`;
Python's `//` floor division is `Int.fdiv`.
-/

/-! ## Character and string utilities (ASCII models of `str` methods) -/

/-- ASCII model of `str.lower` on one character. -/
def lowerChar (c : Char) : Char :=
  if 65 ≤ c.toNat && c.toNat ≤ 90 then Char.ofNat (c.toNat + 32) else c

/-- ASCII model of `str.upper` on one character. -/
def upperChar (c : Char) : Char :=
  if 97 ≤ c.toNat && c.toNat ≤ 122 then Char.ofNat (c.toNat - 32) else c

/-- Whitespace as stripped by `str.strip` and matched by the regex class
`\s` (space, tab, newline, carriage return, vertical tab, form feed). -/
def isSpaceChar (c : Char) : Bool :=
  c.toNat = 32 || c.toNat = 9 || c.toNat = 10 || c.toNat = 13 ||
    c.toNat = 11 || c.toNat = 12

/-- ASCII decimal digit, the regex class `\d`. -/
def isDigitB (c : Char) : Bool := 48 ≤ c.toNat && c.toNat ≤ 57

/-- The regex class `\w`: letters, digits and underscore. -/
def isWordChar (c : Char) : Bool :=
  isDigitB c || (65 ≤ c.toNat && c.toNat ≤ 90) ||
    (97 ≤ c.toNat && c.toNat ≤ 122) || c.toNat = 95

/-- `str.lower` on a whole string. -/
def lowerStr (s : List Char) : List Char := s.map lowerChar

/-- `str.upper` on a whole string. -/
def upperStr (s : List Char) : List Char := s.map upperChar

/-- `str.strip()`: drop leading and trailing whitespace. -/
def pyStrip (s : List Char) : List Char :=
  ((s.dropWhile isSpaceChar).reverse.dropWhile isSpaceChar).reverse

/-- Drop the literal `pat` from the front of `s`, or fail. -/
def dropLit : List Char → List Char → Option (List Char)
  | [], s => some s
  | _ :: _, [] => none
  | c :: cs, d :: ds => if c = d then dropLit cs ds else none

/-- Does `p` hold at some suffix of the string (regex-`search` style)? -/
def searchB (p : List Char → Bool) : List Char → Bool
  | [] => p []
  | c :: cs => p (c :: cs) || searchB p cs

/-- Python's `pat in s` substring test. -/
def containsSub (pat s : List Char) : Bool :=
  searchB (fun t => (dropLit pat t).isSome) s

/-- Python's `s.endswith(suf)`. -/
def endsWithB (suf s : List Char) : Bool :=
  (dropLit suf.reverse s.reverse).isSome

/-! ## Aspect fit (`AndroidView._resize_child`) -/

/-- Python 3 `round` to the nearest integer, ties to even, on `ℚ`. -/
def pyRound (q : ℚ) : ℤ :=
  let f : ℤ := q.num.fdiv q.den
  let r : ℚ := q - f
  if r < 1/2 then f
  else if r > 1/2 then f + 1
  else if f % 2 = 0 then f else f + 1

/-- Aspect ratio computed from `self.controller.resolution` in
`_resize_child`: present only when a resolution is known and its height
is non-zero (tuple truthiness plus the `resolution[1]` check). -/
def computeAspect : Option (ℤ × ℤ) → Option ℚ
  | none => none
  | some r => if r.2 ≠ 0 then some ((r.1 : ℚ) / (r.2 : ℚ)) else none

/-- Core of `AndroidView._resize_child`: given the aspect (device or
client-rect fallback, `none` when unavailable) and the viewport size,
return the `(x_off, y_off, width, height)` passed to `MoveWindow`. -/
def resizeChild (aspect : Option ℚ) (W H : ℤ) : ℤ × ℤ × ℤ × ℤ :=
  match aspect with
  | none => (0, 0, W, H)
  | some a =>
    if a ≠ 0 ∧ H ≠ 0 then
      let availableAspect : ℚ := if H ≠ 0 then (W : ℚ) / (H : ℚ) else a
      if availableAspect > a then
        let targetHeight := H
        let targetWidth := max 1 (pyRound ((targetHeight : ℚ) * a))
        ((W - targetWidth).fdiv 2, (H - targetHeight).fdiv 2,
          targetWidth, targetHeight)
      else
        let targetWidth := W
        let targetHeight := max 1 (pyRound ((targetWidth : ℚ) / a))
        ((W - targetWidth).fdiv 2, (H - targetHeight).fdiv 2,
          targetWidth, targetHeight)
    else (0, 0, W, H)

/-- Fit rectangle following the specification text (§4.5): aspect
`a = deviceW/deviceH`; if `W/H > a` height-constrained, else
width-constrained; round, clamp both target dimensions to a minimum
of 1, and center with integer (floor) halving. -/
def specFit (devW devH W H : ℤ) : ℤ × ℤ × ℤ × ℤ :=
  let a : ℚ := (devW : ℚ) / (devH : ℚ)
  if (W : ℚ) / (H : ℚ) > a then
    let targetHeight := max 1 H
    let targetWidth := max 1 (pyRound ((H : ℚ) * a))
    ((W - targetWidth).fdiv 2, (H - targetHeight).fdiv 2,
      targetWidth, targetHeight)
  else
    let targetWidth := max 1 W
    let targetHeight := max 1 (pyRound ((W : ℚ) / a))
    ((W - targetWidth).fdiv 2, (H - targetHeight).fdiv 2,
      targetWidth, targetHeight)

lemma pyRound_intCast (n : ℤ) : pyRound ((n : ℚ)) = n := by
  simp [pyRound, Rat.num_intCast, Rat.den_intCast, Int.fdiv_one]

lemma fit_example_eval :
    resizeChild (computeAspect (some (1080, 2400))) 800 800 =
      (220, 0, 360, 800) := by
  have hmul : ((800 : ℤ) : ℚ) * (((1080 : ℤ) : ℚ) / ((2400 : ℤ) : ℚ)) =
      ((360 : ℤ) : ℚ) := by
    push_cast; norm_num
  have hgt : ((800 : ℤ) : ℚ) / ((800 : ℤ) : ℚ) >
      ((1080 : ℤ) : ℚ) / ((2400 : ℤ) : ℚ) := by push_cast; norm_num
  have hne : ((1080 : ℤ) : ℚ) / ((2400 : ℤ) : ℚ) ≠ 0 := by
    push_cast; norm_num
  have h360 : pyRound ((360 : ℚ)) = 360 := by
    rw [show (360 : ℚ) = ((360 : ℤ) : ℚ) by norm_num, pyRound_intCast]
  simp only [computeAspect]
  norm_num [resizeChild, hne, hgt, hmul, pyRound_intCast, h360]
  decide

/-- C1 counterexample: for device resolution (1080, 2400) and an
800×800 viewport the fit does NOT produce the width-constrained
rectangle `xOffset=0, yOffset=(800-1778)//2=-489, 800×1778` stated by
the claim. -/
theorem fit_example_claim_false :
    resizeChild (computeAspect (some (1080, 2400))) 800 800 ≠
      (0, -489, 800, 1778) := by
  rw [fit_example_eval]
  decide

/-- C1 amended: for device resolution (1080, 2400) and an 800×800
viewport, `available_aspect = 1 > 9/20 = aspect`, so the fit selects
height-constrained sizing: `targetH = 800`,
`targetW = round(800 * (1080/2400)) = 360`, centered at
`xOffset = (800-360)//2 = 220`, `yOffset = 0`. -/
theorem fit_example_height_constrained :
    resizeChild (computeAspect (some (1080, 2400))) 800 800 =
      (220, 0, 360, 800) :=
  fit_example_eval

/-- C2: for every viewport `W > 0`, `H > 0` and known device resolution
(positive width and height per the data model), the code's fit equals
the spec formula: height-constrained (`targetH = H`,
`targetW = round(H*a)`) when `W/H > a = devW/devH`, else
width-constrained (`targetW = W`, `targetH = round(W/a)`), both target
dimensions clamped to a minimum of 1, centered at
`((W-targetW)/2, (H-targetH)/2)` (floor halving). -/
theorem resize_child_fit_formula (devW devH W H : ℤ)
    (hW : 0 < W) (hH : 0 < H) (hdW : 0 < devW) (hdH : 0 < devH) :
    resizeChild (computeAspect (some (devW, devH))) W H =
      specFit devW devH W H ∧
    1 ≤ (specFit devW devH W H).2.2.1 ∧
    1 ≤ (specFit devW devH W H).2.2.2 := by
  have hdHQ : (0 : ℚ) < (devH : ℚ) := by exact_mod_cast hdH
  have hdWQ : (0 : ℚ) < (devW : ℚ) := by exact_mod_cast hdW
  have ha : (0 : ℚ) < (devW : ℚ) / (devH : ℚ) := div_pos hdWQ hdHQ
  have hdH' : (devH : ℤ) ≠ 0 := by omega
  have hH' : (H : ℤ) ≠ 0 := by omega
  have hmaxH : max (1 : ℤ) H = H := max_eq_right (by omega)
  have hmaxW : max (1 : ℤ) W = W := max_eq_right (by omega)
  constructor
  · by_cases hgt : (W : ℚ) / (H : ℚ) > (devW : ℚ) / (devH : ℚ) <;>
      simp [resizeChild, computeAspect, specFit, hdH', hH', ha.ne', hgt,
        hmaxH, hmaxW]
  · by_cases hgt : (W : ℚ) / (H : ℚ) > (devW : ℚ) / (devH : ℚ) <;>
      simp [specFit, hgt, hmaxH, hmaxW] <;> omega

/-- Witness for C2 at the concrete input (1080, 2400) with an 800×800
viewport. -/
theorem resize_child_fit_formula_witness :
    resizeChild (computeAspect (some (1080, 2400))) 800 800 =
      specFit 1080 2400 800 800 ∧
    1 ≤ (specFit 1080 2400 800 800).2.2.1 ∧
    1 ≤ (specFit 1080 2400 800 800).2.2.2 :=
  resize_child_fit_formula 1080 2400 800 800 (by decide) (by decide)
    (by decide) (by decide)

/-! ## sndcpy prompt handling (`_read_sndcpy_output` / `_send_sndcpy_enter`) -/

/-- Drop one-or-more whitespace characters (the regex `\s+`), greedily. -/
def wsDropPlus : List Char → Option (List Char)
  | [] => none
  | c :: cs => if isSpaceChar c then some (cs.dropWhile isSpaceChar) else none

/-- Word boundary `\b` right after a word character: end of input or a
non-word character next. -/
def kwTail : List Char → Bool
  | [] => true
  | c :: _ => !isWordChar c

/-- The alternatives of `SNDCPY_STOP_PROMPT_PATTERN`. -/
def stopKeywords : List (List Char) :=
  ["stop".toList, "quit".toList, "exit".toList, "close".toList,
    "end".toList, "terminate".toList, "finish".toList]

/-- Match `press\s+enter\s+to\s+(stop|quit|exit|close|end|terminate|finish)\b`
at the head of an (already lower-cased) string. -/
def stopMatchAt (l : List Char) : Bool :=
  (do
    let l1 ← dropLit ("press".toList) l
    let l2 ← wsDropPlus l1
    let l3 ← dropLit ("enter".toList) l2
    let l4 ← wsDropPlus l3
    let l5 ← dropLit ("to".toList) l4
    let l6 ← wsDropPlus l5
    pure l6).elim false fun l6 =>
      stopKeywords.any fun kw =>
        match dropLit kw l6 with
        | some rest => kwTail rest
        | none => false

/-- `SNDCPY_STOP_PROMPT_PATTERN.search` on a lower-cased line. -/
def stopPromptFound (l : List Char) : Bool := searchB stopMatchAt l

/-- The substring checked by `"press enter" in lower`. -/
def pressEnterLit : List Char := "press enter".toList

/-- A line that `_read_sndcpy_output` treats as a continuation prompt:
contains "press enter" (case-insensitively) but does not match the
stop-prompt pattern. -/
def isContinuationPromptLine (line : List Char) : Bool :=
  containsSub pressEnterLit (lowerStr line) &&
    !stopPromptFound (lowerStr line)

/-- Reader-visible sndcpy session state: the `_sndcpy_prompt_ack` flag
plus a count of newline writes made to the process's stdin. -/
structure SndSession where
  promptAck : Bool
  writes : ℕ
deriving DecidableEq

/-- `_send_sndcpy_enter`: skip when already acknowledged or when no
stdin channel is available; otherwise write one newline and set the
acknowledgement flag. -/
def sendSndcpyEnter (stdinOpen : Bool) (s : SndSession) : SndSession :=
  if s.promptAck then s
  else if stdinOpen then { promptAck := true, writes := s.writes + 1 }
  else s

/-- One iteration of the `_read_sndcpy_output` line loop
(`lower = line.lower()` is inlined). -/
def readSndcpyLine (stdinOpen : Bool) (s : SndSession) (line : List Char) :
    SndSession :=
  if containsSub pressEnterLit (lowerStr line) then
    if stopPromptFound (lowerStr line) then s
    else sendSndcpyEnter stdinOpen s
  else s

/-- The `_read_sndcpy_output` loop over a whole session's output lines. -/
def readSndcpyLines (stdinOpen : Bool) : SndSession → List (List Char) →
    SndSession
  | s, [] => s
  | s, line :: rest =>
    readSndcpyLines stdinOpen (readSndcpyLine stdinOpen s line) rest

lemma readSndcpyLine_ack (b : Bool) (s : SndSession) (line : List Char)
    (h : s.promptAck = true) : readSndcpyLine b s line = s := by
  simp [readSndcpyLine, sendSndcpyEnter, h]

lemma readSndcpyLines_closed (lines : List (List Char)) :
    ∀ s : SndSession, readSndcpyLines true s lines =
      if s.promptAck then s
      else if lines.any isContinuationPromptLine then
        ⟨true, s.writes + 1⟩
      else s := by
  induction lines with
  | nil => intro s; cases s with
    | mk a w => cases a <;> simp [readSndcpyLines]
  | cons line rest ih =>
    intro s
    cases s with
    | mk a w =>
      cases a with
      | true =>
        rw [readSndcpyLines, readSndcpyLine_ack true ⟨true, w⟩ line rfl, ih]
        simp
      | false =>
        cases hc : isContinuationPromptLine line with
        | true =>
          have hline : readSndcpyLine true ⟨false, w⟩ line =
              ⟨true, w + 1⟩ := by
            unfold isContinuationPromptLine at hc
            rcases Bool.and_eq_true .. |>.mp hc with ⟨h1, h2⟩
            simp only [Bool.not_eq_true'] at h2
            simp [readSndcpyLine, sendSndcpyEnter, h1, h2]
          rw [readSndcpyLines, hline, ih]
          simp [List.any_cons, hc]
        | false =>
          have hline : readSndcpyLine true ⟨false, w⟩ line = ⟨false, w⟩ := by
            unfold isContinuationPromptLine at hc
            rcases Bool.and_eq_false_iff.mp hc with h1 | h2
            · simp [readSndcpyLine, h1]
            · simp only [Bool.not_eq_false'] at h2
              simp [readSndcpyLine, h2]
          rw [readSndcpyLines, hline, ih]
          simp [List.any_cons, hc]

/-- C3: within one session (fresh acknowledgement flag, stdin open),
stop-family prompt lines never change the state (no newline write),
and the session performs exactly one newline write when at least one
continuation prompt line occurs, no matter how often prompts repeat. -/
theorem sndcpy_prompt_acknowledged_once :
    (∀ lines : List (List Char),
      (readSndcpyLines true ⟨false, 0⟩ lines).writes =
        if lines.any isContinuationPromptLine then 1 else 0) ∧
    (∀ (b : Bool) (s : SndSession) (line : List Char),
      stopPromptFound (lowerStr line) = true →
        readSndcpyLine b s line = s) := by
  constructor
  · intro lines
    rw [readSndcpyLines_closed]
    simp only [Bool.false_eq_true, if_false]
    split <;> rfl
  · intro b s line h
    unfold readSndcpyLine
    rw [h]
    split <;> rfl

/-- Witness for C3: "Press Enter to continue" repeated three times
yields exactly one write; "Press Enter to stop recording" changes
nothing. -/
theorem sndcpy_prompt_acknowledged_once_witness :
    (readSndcpyLines true ⟨false, 0⟩
      ["Press Enter to continue".toList, "Press Enter to continue".toList,
        "Press Enter to continue".toList]).writes = 1 ∧
    readSndcpyLine true ⟨false, 0⟩
      ("Press Enter to stop recording".toList) = ⟨false, 0⟩ := by
  constructor
  · rw [sndcpy_prompt_acknowledged_once.1]
    decide
  · exact sndcpy_prompt_acknowledged_once.2 true ⟨false, 0⟩
      ("Press Enter to stop recording".toList) (by decide)

/-! ## Controller state, events and log-line classification -/

/-- The Qt signals surfaced by `ScrcpyController`. -/
inductive CtrlEvent where
  | started
  | stopped
  | error (msg : List Char)
  | audioUnavailable (msg : List Char)
deriving DecidableEq

/-- Mutable state of a `ScrcpyController`. `proc` is `none` when no
process handle exists, `some none` for a running process
(`poll() is None`) and `some (some code)` once the process exited with
`returncode = code`. `sndcpyProc` abstracts the sidecar handle. -/
structure Controller where
  serial : Option (List Char)
  proc : Option (Option ℤ)
  hwnd : Option ℤ
  resolution : Option (ℤ × ℤ)
  pollActive : Bool
  stderrTimerActive : Bool
  stderrQueue : List (List Char)
  audioRequested : Bool
  audioWarningEmitted : Bool
  stopping : Bool
  sndcpyProc : Option Unit
  sndcpyPromptAck : Bool
deriving DecidableEq

/-- The controller state built by `ScrcpyController.__init__`. -/
def initController (serial : Option (List Char)) : Controller :=
  { serial := serial, proc := none, hwnd := none, resolution := none,
    pollActive := false, stderrTimerActive := false, stderrQueue := [],
    audioRequested := false, audioWarningEmitted := false,
    stopping := false, sndcpyProc := none, sndcpyPromptAck := false }

/-- `ScrcpyController.is_running`. -/
def procRunning : Option (Option ℤ) → Bool
  | none => false
  | some pollRes => pollRes.isNone

/-- Message passed to `_notify_audio_unavailable` from the log-line
classifier. -/
def audioCaptureMsg : List Char :=
  ("Audio capture is not available on this device. " ++
    "Streaming will continue without audio.").toList

/-- Substring rules of `_handle_scrcpy_log_line` (case-sensitive, on
the raw line). -/
def audioFailLine (line : List Char) : Bool :=
  containsSub ("Cannot create AudioRecord".toList) line ||
    containsSub ("stream explicitly disabled by the device".toList) line

/-- `_notify_audio_unavailable`: emit the signal once, then latch the
flag and drop the audio-requested state. -/
def notifyAudioUnavailable (st : Controller) (msg : List Char) :
    Controller × List CtrlEvent :=
  if st.audioWarningEmitted then (st, [])
  else ({ st with audioWarningEmitted := true, audioRequested := false },
    [CtrlEvent.audioUnavailable msg])

/-- `_handle_scrcpy_log_line` (the debug logging is unobservable). -/
def handleScrcpyLogLine (st : Controller) (line : List Char) :
    Controller × List CtrlEvent :=
  if st.audioRequested && !st.audioWarningEmitted then
    if audioFailLine line then notifyAudioUnavailable st audioCaptureMsg
    else (st, [])
  else (st, [])

/-- The line-popping loop of `_drain_process_output`, feeding queued
lines to `_handle_scrcpy_log_line` in arrival order. -/
def runLogLines : Controller → List (List Char) →
    Controller × List CtrlEvent
  | st, [] => (st, [])
  | st, line :: rest =>
    let r := handleScrcpyLogLine st line
    let r2 := runLogLines r.1 rest
    (r2.1, r.2 ++ r2.2)

/-- State after `_notify_audio_unavailable` latches its flags. -/
def latchAudioWarning (st : Controller) : Controller :=
  { st with audioRequested := false, audioWarningEmitted := true }

lemma runLogLines_closed (lines : List (List Char)) :
    ∀ st : Controller, runLogLines st lines =
      if st.audioRequested = true ∧ st.audioWarningEmitted = false ∧
          lines.any audioFailLine = true then
        (latchAudioWarning st,
          [CtrlEvent.audioUnavailable audioCaptureMsg])
      else (st, []) := by
  induction lines with
  | nil => intro st; simp [runLogLines]
  | cons line rest ih =>
    intro st
    cases hA : st.audioRequested with
    | false =>
      have hline : handleScrcpyLogLine st line = (st, []) := by
        simp [handleScrcpyLogLine, hA]
      simp [runLogLines, hline, ih, hA]
    | true =>
      cases hB : st.audioWarningEmitted with
      | true =>
        have hline : handleScrcpyLogLine st line = (st, []) := by
          simp [handleScrcpyLogLine, hB]
        simp [runLogLines, hline, ih, hB]
      | false =>
        cases hl : audioFailLine line with
        | false =>
          have hline : handleScrcpyLogLine st line = (st, []) := by
            simp [handleScrcpyLogLine, hl]
          simp [runLogLines, hline, ih, hA, hB, hl]
        | true =>
          have hline : handleScrcpyLogLine st line =
              (latchAudioWarning st,
                [CtrlEvent.audioUnavailable audioCaptureMsg]) := by
            simp [handleScrcpyLogLine, notifyAudioUnavailable,
              latchAudioWarning, hA, hB, hl]
          have hrest : runLogLines (latchAudioWarning st) rest =
              (latchAudioWarning st, []) := by
            rw [ih]
            simp [latchAudioWarning]
          simp [runLogLines, hline, hrest, hA, hB, hl]

/-- C4: while audio was requested and no warning was emitted yet,
draining a sequence of mirroring-process log lines emits the
audio-unavailable event exactly once if any line matches the
audio-failure rules (the first match), and never again afterwards. -/
theorem audio_unavailable_once (st : Controller) (lines : List (List Char))
    (h1 : st.audioRequested = true) (h2 : st.audioWarningEmitted = false) :
    (runLogLines st lines).2 =
      if lines.any audioFailLine then
        [CtrlEvent.audioUnavailable audioCaptureMsg]
      else [] := by
  rw [runLogLines_closed]
  cases hl : lines.any audioFailLine with
  | true => simp [h1, h2, hl]
  | false => simp [h1, h2, hl]

/-- Witness for C4: the spec's example line list, extended with a
second matching line, still produces exactly one event. -/
theorem audio_unavailable_once_witness :
    (runLogLines { initController none with audioRequested := true }
      ["foo".toList, "Cannot create AudioRecord ...".toList,
        "bar".toList, "Cannot create AudioRecord ...".toList]).2 =
      [CtrlEvent.audioUnavailable audioCaptureMsg] := by
  rw [audio_unavailable_once _ _ rfl rfl]
  decide

/-! ## Launch options (`ScrcpyLaunchOptions`) and argument building -/

/-- Fields of the frozen dataclass `ScrcpyLaunchOptions`. -/
structure ScrcpyLaunchOptions where
  maxFps : ℤ
  bitrate : List Char
  stayAwake : Bool
  audio : Bool
deriving DecidableEq

/-- `SCRCPY_TITLE`. -/
def scrcpyTitle : List Char := "ShadowCastX-Touch Android".toList

/-- `DEFAULT_BITRATE`. -/
def defaultBitrate : List Char := "16M".toList

/-- Message raised for a non-positive fps in `__post_init__`. -/
def fpsErrorMsg : List Char :=
  "Frames per second must be greater than zero.".toList

/-- Message raised for a blank bitrate in `__post_init__`. -/
def bitrateErrorMsg : List Char :=
  "Bitrate must be a non-empty value, e.g. 16M.".toList

/-- Validating construction of `ScrcpyLaunchOptions`: `__post_init__`
raises `ValueError` for `max_fps <= 0` or a blank bitrate. -/
def validateOptions (maxFps : ℤ) (bitrate : List Char)
    (stayAwake audio : Bool) :
    Except (List Char) ScrcpyLaunchOptions :=
  if maxFps ≤ 0 then Except.error fpsErrorMsg
  else if pyStrip bitrate = [] then Except.error bitrateErrorMsg
  else Except.ok ⟨maxFps, bitrate, stayAwake, audio⟩

/-- `f"--window-title={SCRCPY_TITLE}"`. -/
def windowTitleArg : List Char := ("--window-title=".toList) ++ scrcpyTitle

/-- The borderless flag. -/
def borderlessArg : List Char := "--window-borderless".toList

/-- `f"--max-fps={self.max_fps}"`. -/
def maxFpsArg (n : ℤ) : List Char :=
  ("--max-fps=".toList) ++ (toString n).toList

/-- `f"--video-bit-rate={self.bitrate}"`. -/
def bitrateArg (b : List Char) : List Char :=
  ("--video-bit-rate=".toList) ++ b

/-- The stay-awake flag. -/
def stayAwakeArg : List Char := "--stay-awake".toList

/-- The no-audio flag. -/
def noAudioArg : List Char := "--no-audio".toList

/-- `ScrcpyLaunchOptions.to_arguments`. -/
def toArguments (o : ScrcpyLaunchOptions) : List (List Char) :=
  [windowTitleArg, borderlessArg, maxFpsArg o.maxFps,
      bitrateArg o.bitrate] ++
    (if o.stayAwake then [stayAwakeArg] else []) ++
    (if o.audio then [] else [noAudioArg])

/-- Python's `list.insert(i, x)` for `i ≤ len`. -/
def pyInsert (l : List (List Char)) (i : ℕ) (x : List Char) :
    List (List Char) :=
  l.take i ++ x :: l.drop i

/-- Argument-vector assembly in `start()`: `[exe, *to_arguments]`, then
`insert(1, "-s")` and `insert(2, serial)` when a serial is known. -/
def buildArgv (exe : List Char) (serial : Option (List Char))
    (o : ScrcpyLaunchOptions) : List (List Char) :=
  let args := exe :: toArguments o
  match serial with
  | some s => pyInsert (pyInsert args 1 ("-s".toList)) 2 s
  | none => args

/-- Recognizer for a max-fps flag (leading `--max-fps=`). -/
def isMaxFpsFlag : List Char → Bool
  | '-' :: '-' :: 'm' :: 'a' :: 'x' :: '-' :: 'f' :: 'p' :: 's' ::
      '=' :: _ => true
  | _ => false

/-- Recognizer for a bitrate flag (leading `--video-bit-rate=`). -/
def isBitrateFlag : List Char → Bool
  | '-' :: '-' :: 'v' :: 'i' :: 'd' :: 'e' :: 'o' :: '-' :: 'b' ::
      'i' :: 't' :: '-' :: 'r' :: 'a' :: 't' :: 'e' :: '=' :: _ => true
  | _ => false

lemma isMaxFpsFlag_maxFpsArg (n : ℤ) : isMaxFpsFlag (maxFpsArg n) = true :=
  rfl

lemma isMaxFpsFlag_bitrateArg (b : List Char) :
    isMaxFpsFlag (bitrateArg b) = false := rfl

lemma isBitrateFlag_bitrateArg (b : List Char) :
    isBitrateFlag (bitrateArg b) = true := rfl

lemma isBitrateFlag_maxFpsArg (n : ℤ) :
    isBitrateFlag (maxFpsArg n) = false := rfl

lemma isMaxFpsFlag_windowTitleArg : isMaxFpsFlag windowTitleArg = false :=
  rfl

lemma isMaxFpsFlag_borderlessArg : isMaxFpsFlag borderlessArg = false :=
  rfl

lemma isMaxFpsFlag_stayAwakeArg : isMaxFpsFlag stayAwakeArg = false := rfl

lemma isMaxFpsFlag_noAudioArg : isMaxFpsFlag noAudioArg = false := rfl

lemma isBitrateFlag_windowTitleArg : isBitrateFlag windowTitleArg = false :=
  rfl

lemma isBitrateFlag_borderlessArg : isBitrateFlag borderlessArg = false :=
  rfl

lemma isBitrateFlag_stayAwakeArg : isBitrateFlag stayAwakeArg = false := rfl

lemma isBitrateFlag_noAudioArg : isBitrateFlag noAudioArg = false := rfl

/-- C6: for valid options `to_arguments()` is the fixed vector
window-title, borderless, max-fps, bitrate, stay-awake iff requested,
no-audio iff audio is off; it carries exactly one max-fps flag and one
bitrate flag with the configured values; and with a known serial the
full argv puts the `-s serial` selector pair right after the
executable. -/
theorem to_arguments_flags (o : ScrcpyLaunchOptions)
    (h1 : 0 < o.maxFps) (h2 : pyStrip o.bitrate ≠ []) :
    toArguments o =
      [windowTitleArg, borderlessArg, maxFpsArg o.maxFps,
          bitrateArg o.bitrate] ++
        (if o.stayAwake then [stayAwakeArg] else []) ++
        (if o.audio then [] else [noAudioArg]) ∧
    (toArguments o).filter isMaxFpsFlag = [maxFpsArg o.maxFps] ∧
    (toArguments o).filter isBitrateFlag = [bitrateArg o.bitrate] ∧
    ∀ exe serial, buildArgv exe (some serial) o =
      exe :: ("-s".toList) :: serial :: toArguments o := by
  refine ⟨rfl, ?_, ?_, ?_⟩
  · rcases o with ⟨fps, br, sa, au⟩
    cases sa <;> cases au <;>
      simp only [toArguments, List.filter_append, List.filter_cons,
        List.filter_nil, isMaxFpsFlag_maxFpsArg, isMaxFpsFlag_bitrateArg,
        isMaxFpsFlag_windowTitleArg, isMaxFpsFlag_borderlessArg,
        isMaxFpsFlag_stayAwakeArg, isMaxFpsFlag_noAudioArg,
        if_true, if_false, Bool.false_eq_true, ite_true, ite_false,
        List.append_nil, List.nil_append, List.cons_append]
  · rcases o with ⟨fps, br, sa, au⟩
    cases sa <;> cases au <;>
      simp only [toArguments, List.filter_append, List.filter_cons,
        List.filter_nil, isBitrateFlag_bitrateArg, isBitrateFlag_maxFpsArg,
        isBitrateFlag_windowTitleArg, isBitrateFlag_borderlessArg,
        isBitrateFlag_stayAwakeArg, isBitrateFlag_noAudioArg,
        if_true, if_false, Bool.false_eq_true, ite_true, ite_false,
        List.append_nil, List.nil_append, List.cons_append]
  · intro exe serial
    simp [buildArgv, pyInsert]

/-- Witness for C6 at fps 240, bitrate "16M", stay-awake on, audio
off. -/
theorem to_arguments_flags_witness :
    toArguments ⟨240, ("16M".toList), true, false⟩ =
      [windowTitleArg, borderlessArg, maxFpsArg 240,
          bitrateArg ("16M".toList)] ++
        (if true then [stayAwakeArg] else []) ++
        (if false then [] else [noAudioArg]) ∧
    (toArguments ⟨240, ("16M".toList), true, false⟩).filter isMaxFpsFlag =
      [maxFpsArg 240] ∧
    (toArguments ⟨240, ("16M".toList), true, false⟩).filter isBitrateFlag =
      [bitrateArg ("16M".toList)] ∧
    ∀ exe serial, buildArgv exe (some serial)
        ⟨240, ("16M".toList), true, false⟩ =
      exe :: ("-s".toList) :: serial ::
        toArguments ⟨240, ("16M".toList), true, false⟩ :=
  to_arguments_flags ⟨240, ("16M".toList), true, false⟩ (by decide)
    (by decide)

/-! ## Bitrate validation (`MainWindow._validated_bitrate`) -/

/-- Case-insensitive `[KMG]`. -/
def isKMG (c : Char) : Bool :=
  (lowerChar c).toNat = 107 || (lowerChar c).toNat = 109 ||
    (lowerChar c).toNat = 103

/-- After `[KMG]`: the optional case-insensitive `bit/s` then
end-of-string. -/
def bitrateUnitTail (rest : List Char) : Bool :=
  rest.isEmpty || lowerStr rest == "bit/s".toList

/-- The optional `[KMG](bit/s)?` group followed by end-of-string. -/
def bitrateUnitOpt : List Char → Bool
  | [] => true
  | c :: rest => isKMG c && bitrateUnitTail rest

/-- After a literal dot: `\d+` then the optional unit group. -/
def bitrateFrac : List Char → Bool
  | [] => false
  | c :: rest => isDigitB c && bitrateUnitOpt (rest.dropWhile isDigitB)

/-- What may follow the leading digit run of `BITRATE_PATTERN`. -/
def bitrateAfterDigits : List Char → Bool
  | [] => true
  | c :: rest =>
    if c.toNat = 46 then bitrateFrac rest else bitrateUnitOpt (c :: rest)

/-- `BITRATE_PATTERN.fullmatch`: the anchored case-insensitive regex
`\d+(\.\d+)?([KMG](bit/s)?)?`. -/
def bitrateMatch : List Char → Bool
  | [] => false
  | c :: rest => isDigitB c && bitrateAfterDigits (rest.dropWhile isDigitB)

/-- `MainWindow._validated_bitrate`: blank input falls back to the
default bitrate; non-blank input must match the bitrate pattern; a
trailing case-insensitive `bit/s` is split off before upper-casing the
numeric part. -/
def validatedBitrate (raw : List Char) : Option (List Char) :=
  let text := pyStrip raw
  if text = [] then some defaultBitrate
  else if bitrateMatch text = false then none
  else
    let ends := endsWithB ("bit/s".toList) (lowerStr text)
    let text2 := if ends then text.take (text.length - 5) else text
    let suffix := if ends then "bit/s".toList else ([] : List Char)
    let normalized := upperStr (pyStrip text2)
    if normalized = [] then none
    else some (normalized ++ suffix)

lemma isDigitB_not_space (c : Char) (h : isDigitB c = true) :
    isSpaceChar c = false := by
  simp only [isDigitB, Bool.and_eq_true, decide_eq_true_eq] at h
  simp only [isSpaceChar, Bool.or_eq_false_iff, decide_eq_false_iff_not]
  omega

lemma lowerChar_digit (c : Char) (h : isDigitB c = true) :
    lowerChar c = c := by
  simp only [isDigitB, Bool.and_eq_true, decide_eq_true_eq] at h
  unfold lowerChar
  rw [if_neg]
  simp only [Bool.and_eq_true, decide_eq_true_eq, not_and]
  omega

lemma dropLit_eq_append (p : List Char) :
    ∀ s r : List Char, dropLit p s = some r → s = p ++ r := by
  induction p with
  | nil =>
    intro s r h
    simp only [dropLit, Option.some.injEq] at h
    simp [h]
  | cons c cs ih =>
    intro s r h
    cases s with
    | nil => simp [dropLit] at h
    | cons d ds =>
      rw [dropLit] at h
      by_cases hcd : c = d
      · rw [if_pos hcd] at h
        have := ih ds r h
        simp [hcd, this]
      · rw [if_neg hcd] at h
        simp at h

lemma pyStrip_ne_nil_of_mem (l : List Char) (c : Char) (hc : c ∈ l)
    (hns : isSpaceChar c = false) : pyStrip l ≠ [] := by
  intro h
  unfold pyStrip at h
  rw [List.reverse_eq_nil_iff] at h
  have h2 := List.dropWhile_eq_nil_iff.mp h
  have hsplit := List.takeWhile_append_dropWhile
    (p := isSpaceChar) (l := l)
  rw [← hsplit] at hc
  rcases List.mem_append.mp hc with h3 | h3
  · exact absurd (List.mem_takeWhile_imp h3) (by simp [hns])
  · have := h2 c (List.mem_reverse.mpr h3)
    simp [hns] at this

lemma bitrateMatch_head (t : List Char) (h : bitrateMatch t = true) :
    ∃ c r, t = c :: r ∧ isDigitB c = true := by
  cases t with
  | nil => simp [bitrateMatch] at h
  | cons c r =>
    refine ⟨c, r, rfl, ?_⟩
    cases hd : isDigitB c with
    | true => rfl
    | false => simp [bitrateMatch, hd] at h

/-- C9: blank (empty or whitespace-only) bitrate input is not rejected:
it yields the default bitrate string "16M"; a `none` result (rejection)
happens only for non-blank text failing the bitrate pattern. -/
theorem validated_bitrate_blank_defaults (raw : List Char) :
    (pyStrip raw = [] → validatedBitrate raw = some defaultBitrate) ∧
    (validatedBitrate raw = none →
      pyStrip raw ≠ [] ∧ bitrateMatch (pyStrip raw) = false) := by
  constructor
  · intro h
    simp [validatedBitrate, h]
  · intro hnone
    by_cases ht : pyStrip raw = []
    · simp [validatedBitrate, ht] at hnone
    · refine ⟨ht, ?_⟩
      by_contra hbm
      rw [Bool.not_eq_false] at hbm
      obtain ⟨c, r, hcr, hc⟩ := bitrateMatch_head _ hbm
      have hcmem : c ∈ pyStrip raw := by rw [hcr]; exact List.mem_cons_self c r
      cases hends : endsWithB ("bit/s".toList) (lowerStr (pyStrip raw)) with
      | false =>
        have hs2 : pyStrip (pyStrip raw) ≠ [] :=
          pyStrip_ne_nil_of_mem _ c hcmem (isDigitB_not_space c hc)
        have hnorm : upperStr (pyStrip (pyStrip raw)) ≠ [] := by
          simp only [upperStr, ne_eq, List.map_eq_nil_iff]
          exact hs2
        simp only [validatedBitrate, if_neg ht, hbm, Bool.true_eq_false,
          if_neg (by simp : ¬False), hends, if_false, Bool.false_eq_true,
          if_neg hnorm] at hnone
        · simp at hnone
      | true =>
        obtain ⟨rest, hrest⟩ := Option.isSome_iff_exists.mp hends
        have happ := dropLit_eq_append _ _ _ hrest
        have hlen : (pyStrip raw).length = 5 + rest.length := by
          have h1 := congrArg List.length happ
          simp only [List.length_reverse, List.length_map, lowerStr,
            List.length_append] at h1
          simpa using h1
        have hrest_ne : rest ≠ [] := by
          intro hre
          rw [hre, List.append_nil] at happ
          have : lowerStr (pyStrip raw) = "bit/s".toList := by
            have := congrArg List.reverse happ
            rw [List.reverse_reverse] at this
            rw [this]
            decide
          rw [hcr] at this
          rw [show ("bit/s".toList) = ['b', 'i', 't', '/', 's'] from rfl]
            at this
          simp only [lowerStr, List.map_cons, List.cons.injEq] at this
          have hcb : c = 'b' := by
            rw [← lowerChar_digit c hc]
            exact this.1
          rw [hcb] at hc
          simp [isDigitB] at hc
        have hlen6 : 1 ≤ (pyStrip raw).length - 5 := by
          have : rest.length ≠ 0 := by
            simpa using List.length_eq_zero.not.mpr hrest_ne
          omega
        have hcmem2 : c ∈ (pyStrip raw).take ((pyStrip raw).length - 5) := by
          cases hnn : (pyStrip raw).length - 5 with
          | zero => omega
          | succ k =>
            rw [hcr]
            simp [List.take]
        have hs2 : pyStrip ((pyStrip raw).take ((pyStrip raw).length - 5)) ≠
            [] :=
          pyStrip_ne_nil_of_mem _ c hcmem2 (isDigitB_not_space c hc)
        have hnorm : upperStr (pyStrip
            ((pyStrip raw).take ((pyStrip raw).length - 5))) ≠ [] := by
          simp only [upperStr, ne_eq, List.map_eq_nil_iff]
          exact hs2
        simp only [validatedBitrate, if_neg ht, hbm, Bool.true_eq_false,
          hends, if_true, if_neg hnorm] at hnone
        · simp at hnone

/-- Witness for C9: whitespace-only input yields the default "16M". -/
theorem validated_bitrate_blank_defaults_witness :
    validatedBitrate ("   ".toList) = some defaultBitrate :=
  (validated_bitrate_blank_defaults ("   ".toList)).1 (by decide)

/-! ## Controller lifecycle: `start`, `stop`, `_drain_process_output` -/

/-- Error message when the scrcpy executable cannot be resolved. -/
def scrcpyNotFoundMsg : List Char :=
  "scrcpy.exe not found. Set SCRCPY_EXE to full path.".toList

/-- Audio-unavailable message for a missing sndcpy executable. -/
def sndcpyNotFoundMsg : List Char :=
  ("sndcpy executable not found. " ++
    "Audio will be disabled for this session.").toList

/-- Audio-unavailable message for a failed sndcpy spawn (the exception
detail of the f-string is abstracted away). -/
def sndcpyStartFailMsg : List Char := "Unable to start sndcpy.".toList

/-- Error message for an unexpected scrcpy exit with a known code. -/
def exitMessage (code : ℤ) : List Char :=
  ("scrcpy exited unexpectedly with code " ++ toString code ++ ".").toList

/-- `_stop_sndcpy`: every path ends with the sidecar handle gone and
the prompt-ack and audio-requested flags reset. -/
def stopSndcpyFn (st : Controller) : Controller :=
  let st1 := { st with sndcpyProc := none, sndcpyPromptAck := false }
  { st1 with audioRequested := false }

/-- `stop()`: halt the two timers, terminate (with `_stopping` reset by
the `finally`), clear the output queue, drop the process and window
handles, stop the sidecar, and emit one `stopped` signal. -/
def stopFn (st : Controller) : Controller × List CtrlEvent :=
  let st1 := { st with stderrTimerActive := false, pollActive := false }
  let st2 := { st1 with stopping := false }
  let st3 := { st2 with stderrQueue := [] }
  let st4 := { st3 with proc := none, hwnd := none }
  (stopSndcpyFn st4, [CtrlEvent.stopped])

/-- `_drain_process_output`: with no handle, stop the timer and clear
the queue; otherwise classify all queued lines, then if the process
exited tear down via `stop()` and report an unexpected exit (`code not
in (0, None)` while not self-stopping) as one error event. -/
def drainFn (st : Controller) : Controller × List CtrlEvent :=
  match st.proc with
  | none => ({ st with stderrTimerActive := false, stderrQueue := [] }, [])
  | some pollRes =>
    let r := runLogLines { st with stderrQueue := [] } st.stderrQueue
    match pollRes with
    | none => r
    | some code =>
      let r2 := stopFn { r.1 with stderrTimerActive := false }
      if r.1.stopping = false ∧ code ≠ 0 then
        (r2.1, r.2 ++ r2.2 ++ [CtrlEvent.error (exitMessage code)])
      else (r2.1, r.2 ++ r2.2)

/-- `_start_sndcpy`: resolve the executable (reporting
audio-unavailable on failure), reset the previous instance and the
prompt flag, spawn (reporting audio-unavailable on failure), and
return whether audio is active. -/
def startSndcpyFn (st : Controller) (exeRes : Option (List Char))
    (spawnOk : Bool) : Controller × List CtrlEvent × Bool :=
  match exeRes with
  | none =>
    let r := notifyAudioUnavailable st sndcpyNotFoundMsg
    (r.1, r.2, false)
  | some _ =>
    let st1 := stopSndcpyFn st
    let st2 := { st1 with sndcpyPromptAck := false }
    if spawnOk then ({ st2 with sndcpyProc := some () }, [], true)
    else
      let r := notifyAudioUnavailable st2 sndcpyStartFailMsg
      (r.1, r.2, false)

/-- `start()`. External effects are inputs: `deviceQuery` is
`get_first_device()`, `exeRes` is `_resolve_scrcpy()`, `resQuery` the
`wm size` result, `sndcpyExeRes`/`sndcpySpawnOk` the sidecar's
resolution and spawn outcome, `spawnRes` the scrcpy `Popen` outcome.
The third result component is the argument vector handed to `Popen`
(`none` when no spawn was attempted). Launch options are constructed
with `audio=False` regardless of the `audio` parameter. -/
def startFn (st : Controller) (deviceQuery : Option (List Char))
    (exeRes : Option (List Char)) (fps : ℤ) (bitrate : List Char)
    (stayAwake audio : Bool) (resQuery : Option (ℤ × ℤ))
    (sndcpyExeRes : Option (List Char)) (sndcpySpawnOk : Bool)
    (spawnRes : Except (List Char) Unit) :
    Controller × List CtrlEvent × Option (List (List Char)) :=
  if procRunning st.proc then (st, [], none)
  else
    let st0 := if st.serial.isNone then { st with serial := deviceQuery }
      else st
    match exeRes with
    | none => (st0, [CtrlEvent.error scrcpyNotFoundMsg], none)
    | some exe =>
      match validateOptions fps bitrate stayAwake false with
      | Except.error msg => (st0, [CtrlEvent.error msg], none)
      | Except.ok opts =>
        let st1 := { st0 with resolution := resQuery }
        let st2 := { st1 with audioWarningEmitted := false }
        let r := if audio then startSndcpyFn st2 sndcpyExeRes sndcpySpawnOk
          else (stopSndcpyFn st2, [], false)
        let st3 := { r.1 with audioRequested := r.2.2 }
        let st4 := { st3 with stderrQueue := [] }
        let args := buildArgv exe st4.serial opts
        match spawnRes with
        | Except.error emsg =>
          let st5 := if r.2.2 then stopSndcpyFn st4 else st4
          (st5, r.2.1 ++ [CtrlEvent.error emsg], some args)
        | Except.ok _ =>
          let st5 := { st4 with proc := some none }
          let st6 := { st5 with stderrTimerActive := true, pollActive := true }
          (st6, r.2.1, some args)

lemma runLogLines_preserves_stopping (st : Controller)
    (lines : List (List Char)) :
    (runLogLines st lines).1.stopping = st.stopping := by
  rw [runLogLines_closed]
  split <;> rfl

lemma runLogLines_events_audio (st : Controller)
    (lines : List (List Char)) :
    ∀ e ∈ (runLogLines st lines).2,
      ∃ m, e = CtrlEvent.audioUnavailable m := by
  rw [runLogLines_closed]
  split <;> simp

/-- C8: every `stop()` call emits the stopped notification exactly once
and always clears the process handle, the window handle and the
sidecar handle — in particular a call on an idle controller (no
process handle) is a safe no-op that does not double-emit. -/
theorem stop_clears_and_signals_once (st : Controller) :
    (stopFn st).2 = [CtrlEvent.stopped] ∧
    (stopFn st).1.proc = none ∧
    (stopFn st).1.hwnd = none ∧
    (stopFn st).1.sndcpyProc = none :=
  ⟨rfl, rfl, rfl, rfl⟩

/-- C7: when the drain step sees the process exited with a non-zero
code and stop was not self-initiated, the full teardown runs (sidecar
stopped, handles cleared, `stopped` emitted) followed by exactly one
error event carrying the exit code; any preceding events are
audio-unavailable classifications of queued lines. -/
theorem unexpected_exit_teardown (st : Controller) (code : ℤ)
    (hproc : st.proc = some (some code)) (hcode : code ≠ 0)
    (hstop : st.stopping = false) :
    (drainFn st).1.proc = none ∧
    (drainFn st).1.hwnd = none ∧
    (drainFn st).1.sndcpyProc = none ∧
    ∃ pre, (drainFn st).2 =
        pre ++ [CtrlEvent.stopped, CtrlEvent.error (exitMessage code)] ∧
      ∀ e ∈ pre, ∃ m, e = CtrlEvent.audioUnavailable m := by
  obtain ⟨se, pr, hw, re, pa, sta, sq, ar, aw, stp, snp, spa⟩ := st
  replace hproc : pr = some (some code) := hproc
  replace hstop : stp = false := hstop
  subst hproc
  subst hstop
  have hstopping : (runLogLines
      ⟨se, some (some code), hw, re, pa, sta, [], ar, aw, false, snp, spa⟩
      sq).1.stopping = false :=
    runLogLines_preserves_stopping _ sq
  have hevs : ∀ e ∈ (runLogLines
      ⟨se, some (some code), hw, re, pa, sta, [], ar, aw, false, snp, spa⟩
      sq).2, ∃ m, e = CtrlEvent.audioUnavailable m :=
    runLogLines_events_audio _ sq
  simp only [drainFn]
  rw [if_pos ⟨hstopping, hcode⟩]
  refine ⟨rfl, rfl, rfl,
    ⟨(runLogLines
      ⟨se, some (some code), hw, re, pa, sta, [], ar, aw, false, snp, spa⟩
      sq).2, ?_, hevs⟩⟩
  simp [stopFn]

/-- Concrete state for the C7 witness: streaming session whose process
exited with code 1, no self-initiated stop. -/
def crashedController : Controller :=
  { serial := none, proc := some (some 1), hwnd := some 42,
    resolution := none, pollActive := true, stderrTimerActive := true,
    stderrQueue := [], audioRequested := false,
    audioWarningEmitted := false, stopping := false,
    sndcpyProc := some (), sndcpyPromptAck := false }

/-- Witness for C7 at the concrete crashed controller. -/
theorem unexpected_exit_teardown_witness :
    (drainFn crashedController).1.proc = none ∧
    (drainFn crashedController).1.hwnd = none ∧
    (drainFn crashedController).1.sndcpyProc = none ∧
    ∃ pre, (drainFn crashedController).2 =
        pre ++ [CtrlEvent.stopped, CtrlEvent.error (exitMessage 1)] ∧
      ∀ e ∈ pre, ∃ m, e = CtrlEvent.audioUnavailable m :=
  unexpected_exit_teardown crashedController 1 rfl (by decide) rfl

lemma notifyAudioUnavailable_serial (st : Controller) (msg : List Char) :
    (notifyAudioUnavailable st msg).1.serial = st.serial := by
  unfold notifyAudioUnavailable
  split <;> rfl

lemma startSndcpyFn_serial (st : Controller) (exeRes : Option (List Char))
    (sok : Bool) : (startSndcpyFn st exeRes sok).1.serial = st.serial := by
  cases exeRes with
  | none => exact notifyAudioUnavailable_serial st sndcpyNotFoundMsg
  | some e =>
    cases sok with
    | true => rfl
    | false =>
      exact notifyAudioUnavailable_serial
        { stopSndcpyFn st with sndcpyPromptAck := false } sndcpyStartFailMsg

/-- C5: with the executable resolvable but `fps ≤ 0` or a blank
bitrate, constructing the launch options fails with a validation
error, and the start attempt emits exactly that one error event,
attempts no spawn, and leaves the (absent) process handle absent. -/
theorem invalid_options_start_rejected (st : Controller)
    (dq : Option (List Char)) (exe : List Char) (fps : ℤ) (br : List Char)
    (sa au : Bool) (rq : Option (ℤ × ℤ)) (sx : Option (List Char))
    (sok : Bool) (sp : Except (List Char) Unit)
    (hidle : st.proc = none) (hbad : fps ≤ 0 ∨ pyStrip br = []) :
    (∃ m, validateOptions fps br sa false = Except.error m) ∧
    (∃ m, (startFn st dq (some exe) fps br sa au rq sx sok sp).2.1 =
      [CtrlEvent.error m]) ∧
    (startFn st dq (some exe) fps br sa au rq sx sok sp).1.proc = none ∧
    (startFn st dq (some exe) fps br sa au rq sx sok sp).2.2 = none := by
  have hrun : procRunning st.proc = false := by rw [hidle]; rfl
  have hval : ∃ m, validateOptions fps br sa false = Except.error m := by
    rcases hbad with hf | hb
    · exact ⟨fpsErrorMsg, by simp [validateOptions, if_pos hf]⟩
    · by_cases hf : fps ≤ 0
      · exact ⟨fpsErrorMsg, by simp [validateOptions, if_pos hf]⟩
      · exact ⟨bitrateErrorMsg, by simp [validateOptions, if_neg hf, hb]⟩
  obtain ⟨m, hm⟩ := hval
  have hred : startFn st dq (some exe) fps br sa au rq sx sok sp =
      ((if st.serial.isNone then { st with serial := dq } else st),
        [CtrlEvent.error m], none) := by
    by_cases hs : st.serial.isNone = true <;>
      simp [startFn, hrun, hm, hs]
  refine ⟨⟨m, hm⟩, ⟨m, by rw [hred]⟩, ?_, by rw [hred]⟩
  rw [hred]
  by_cases hs : st.serial.isNone = true <;> simp [hs, hidle]

/-- Witness for C5 at fps 0 on an idle controller. -/
theorem invalid_options_start_rejected_witness :
    (∃ m, validateOptions 0 ("16M".toList) true false = Except.error m) ∧
    (∃ m, (startFn (initController none) none (some ("scrcpy".toList)) 0
      ("16M".toList) true false none none false (Except.ok ())).2.1 =
      [CtrlEvent.error m]) ∧
    (startFn (initController none) none (some ("scrcpy".toList)) 0
      ("16M".toList) true false none none false (Except.ok ())).1.proc =
      none ∧
    (startFn (initController none) none (some ("scrcpy".toList)) 0
      ("16M".toList) true false none none false (Except.ok ())).2.2 =
      none :=
  invalid_options_start_rejected (initController none) none
    ("scrcpy".toList) 0 ("16M".toList) true false none none false
    (Except.ok ()) rfl (Or.inl (by decide))

lemma noAudio_mem_toArguments (o : ScrcpyLaunchOptions)
    (h : o.audio = false) : noAudioArg ∈ toArguments o := by
  simp [toArguments, h]

lemma noAudio_mem_buildArgv (exe : List Char)
    (serial : Option (List Char)) (o : ScrcpyLaunchOptions)
    (h : o.audio = false) : noAudioArg ∈ buildArgv exe serial o := by
  cases serial with
  | none => simp [buildArgv, noAudio_mem_toArguments o h]
  | some s => simp [buildArgv, pyInsert, noAudio_mem_toArguments o h]

lemma startFn_argv (st : Controller) (dq : Option (List Char))
    (exe : List Char) (fps : ℤ) (br : List Char) (sa au : Bool)
    (rq : Option (ℤ × ℤ)) (sx : Option (List Char)) (sok : Bool)
    (sp : Except (List Char) Unit) (opts : ScrcpyLaunchOptions)
    (hrun : procRunning st.proc = false)
    (hv : validateOptions fps br sa false = Except.ok opts) :
    (startFn st dq (some exe) fps br sa au rq sx sok sp).2.2 =
      some (buildArgv exe
        (if st.serial.isNone then dq else st.serial) opts) := by
  by_cases hs : st.serial.isNone = true <;>
    cases au <;> cases sp <;>
      simp [startFn, hrun, hv, hs, stopSndcpyFn, startSndcpyFn_serial]

/-- C10: the launch options are constructed with audio off no matter
what `start()`'s `audio` parameter is, so the spawn argument vector is
independent of that parameter and always contains the no-audio flag;
requested audio only influences the sidecar path. -/
theorem no_audio_flag_always (st : Controller) (dq : Option (List Char))
    (exeRes : Option (List Char)) (fps : ℤ) (br : List Char) (sa : Bool)
    (rq : Option (ℤ × ℤ)) (sx : Option (List Char)) (sok : Bool)
    (sp : Except (List Char) Unit) (au : Bool) :
    (startFn st dq exeRes fps br sa au rq sx sok sp).2.2 =
      (startFn st dq exeRes fps br sa false rq sx sok sp).2.2 ∧
    ∀ args, (startFn st dq exeRes fps br sa au rq sx sok sp).2.2 =
        some args → noAudioArg ∈ args := by
  cases hrun : procRunning st.proc with
  | true =>
    constructor
    · simp [startFn, hrun]
    · intro args ha
      simp [startFn, hrun] at ha
  | false =>
    cases exeRes with
    | none =>
      constructor
      · simp [startFn, hrun]
      · intro args ha
        simp [startFn, hrun] at ha
    | some exe =>
      cases hv : validateOptions fps br sa false with
      | error msg =>
        constructor
        · simp [startFn, hrun, hv]
        · intro args ha
          simp [startFn, hrun, hv] at ha
      | ok opts =>
        have hopts : opts = ⟨fps, br, sa, false⟩ := by
          unfold validateOptions at hv
          split_ifs at hv
          all_goals simp only [Except.ok.injEq] at hv
          exact hv.symm
        constructor
        · rw [startFn_argv st dq exe fps br sa au rq sx sok sp opts
              hrun hv,
            startFn_argv st dq exe fps br sa false rq sx sok sp opts
              hrun hv]
        · intro args ha
          rw [startFn_argv st dq exe fps br sa au rq sx sok sp opts
            hrun hv] at ha
          have hargs : args = buildArgv exe
              (if st.serial.isNone then dq else st.serial) opts := by
            injection ha with h
            exact h.symm
          rw [hargs]
          exact noAudio_mem_buildArgv _ _ _ (by rw [hopts])

/-- Witness for C10: a concrete start with audio requested still
carries the no-audio flag in the spawn argument vector. -/
theorem no_audio_flag_always_witness :
    noAudioArg ∈ buildArgv ("scrcpy".toList) (some ("SER".toList))
      ⟨240, ("16M".toList), true, false⟩ :=
  (no_audio_flag_always (initController (some ("SER".toList))) none
    (some ("scrcpy".toList)) 240 ("16M".toList) true none
    (some ("sndcpy".toList)) true (Except.ok ()) true).2
    (buildArgv ("scrcpy".toList) (some ("SER".toList))
      ⟨240, ("16M".toList), true, false⟩)
    rfl
